import Mathlib

/-!
# EduFlow — verification of the spec claims against the source

Shallow embedding of the EduFlow client (React/TypeScript) and its
database policies, with one theorem per claim.  Timestamps are modelled
as natural numbers (milliseconds since the epoch), JS numbers arising
from timestamp arithmetic as rationals, and database rows as structures
carrying the fields the claims mention.
-/

namespace EduFlow

/-! ## Achievements (src/src/pages/Achievements.tsx) -/

/-- The `type` discriminator of an achievement
(`'assignments' | 'study_hours' | 'streak'`). -/
inductive AchievementType
  | assignments
  | study_hours
  | streak
deriving DecidableEq, Repr

/-- One entry of the fixed `ACHIEVEMENTS` list.  The `icon` React
component is represented by its name. -/
structure Achievement where
  key : String
  title : String
  descr : String
  icon : String
  color : String
  requirement : ℕ
  type : AchievementType
deriving DecidableEq, Repr

/-- The fixed `ACHIEVEMENTS` list of `Achievements.tsx`. -/
def ACHIEVEMENTS : List Achievement :=
  [ ⟨"first_assignment", "First Steps", "Complete your first assignment", "CheckCircle", "#22c55e", 1, .assignments⟩
  , ⟨"assignments_5", "Getting Started", "Complete 5 assignments", "Target", "#3b82f6", 5, .assignments⟩
  , ⟨"assignments_10", "Dedicated Learner", "Complete 10 assignments", "BookOpen", "#8b5cf6", 10, .assignments⟩
  , ⟨"assignments_25", "Knowledge Seeker", "Complete 25 assignments", "Star", "#f59e0b", 25, .assignments⟩
  , ⟨"assignments_50", "Scholar", "Complete 50 assignments", "Award", "#ec4899", 50, .assignments⟩
  , ⟨"assignments_100", "Master Student", "Complete 100 assignments", "Crown", "#eab308", 100, .assignments⟩
  , ⟨"study_1h", "Time Well Spent", "Study for 1 hour total", "Clock", "#06b6d4", 1, .study_hours⟩
  , ⟨"study_5h", "Focused Mind", "Study for 5 hours total", "Zap", "#f97316", 5, .study_hours⟩
  , ⟨"study_10h", "Study Champion", "Study for 10 hours total", "Flame", "#ef4444", 10, .study_hours⟩
  , ⟨"study_25h", "Dedication Master", "Study for 25 hours total", "Trophy", "#a855f7", 25, .study_hours⟩
  , ⟨"study_50h", "Study Legend", "Study for 50 hours total", "Medal", "#14b8a6", 50, .study_hours⟩ ]

/-- The `earned` flag computed in the loop body of
`checkAndAwardAchievements`: `true` exactly when
`achievement.type === 'assignments' && assignments >= achievement.requirement`
or `achievement.type === 'study_hours' && studyHours >= achievement.requirement`.
`assignments` is the number of the student's submissions; `studyHours` is the
student's completed study time in hours (`studyMinutes / 60`, a JS number,
modelled as a rational). -/
def achievementEarned (assignments : ℕ) (studyHours : ℚ) (a : Achievement) : Bool :=
  match a.type with
  | .assignments => decide ((a.requirement : ℕ) ≤ assignments)
  | .study_hours => decide ((a.requirement : ℚ) ≤ studyHours)
  | .streak => false

/-- `checkAndAwardAchievements` of `Achievements.tsx`, with the database
inserts assumed to succeed (on a successful insert the code both writes a
`user_achievements` row and pushes the key onto `newAchievements`; the
returned list is therefore both the set of inserted rows and the set of
keys reported as newly earned).  Iterates the fixed `ACHIEVEMENTS` list,
skips keys already in `currentlyEarned` (`includes`), and awards an
achievement when its `earned` flag is set. -/
def checkAndAwardAchievements (currentlyEarned : List String)
    (assignments : ℕ) (studyHours : ℚ) : List String :=
  ACHIEVEMENTS.foldl
    (fun newAchievements a =>
      if a.key ∈ currentlyEarned then newAchievements
      else if achievementEarned assignments studyHours a then newAchievements ++ [a.key]
      else newAchievements)
    []

/-- The per-achievement award condition: not already earned and the
threshold check passes. -/
def shouldAward (currentlyEarned : List String) (assignments : ℕ)
    (studyHours : ℚ) (a : Achievement) : Bool :=
  !(decide (a.key ∈ currentlyEarned)) && achievementEarned assignments studyHours a

theorem foldl_award_eq (currentlyEarned : List String) (assignments : ℕ)
    (studyHours : ℚ) (L : List Achievement) (acc : List String) :
    L.foldl
      (fun newAchievements a =>
        if a.key ∈ currentlyEarned then newAchievements
        else if achievementEarned assignments studyHours a then newAchievements ++ [a.key]
        else newAchievements)
      acc
      = acc ++ (L.filter (shouldAward currentlyEarned assignments studyHours)).map (·.key) := by
  induction L generalizing acc with
  | nil => simp
  | cons a L ih =>
    by_cases hmem : a.key ∈ currentlyEarned
    · simp [List.foldl_cons, hmem, ih, shouldAward]
    · by_cases hearn : achievementEarned assignments studyHours a
      · simp [List.foldl_cons, hmem, hearn, ih, shouldAward]
      · simp [List.foldl_cons, hmem, hearn, ih, shouldAward]

theorem achievements_keys_nodup : (ACHIEVEMENTS.map (·.key)).Nodup := by
  decide

theorem mem_checkAndAward_iff (currentlyEarned : List String) (assignments : ℕ)
    (studyHours : ℚ) (a : Achievement) (ha : a ∈ ACHIEVEMENTS) :
    a.key ∈ checkAndAwardAchievements currentlyEarned assignments studyHours
      ↔ shouldAward currentlyEarned assignments studyHours a = true := by
  unfold checkAndAwardAchievements
  rw [foldl_award_eq]
  simp only [List.nil_append, List.mem_map, List.mem_filter]
  constructor
  · rintro ⟨b, ⟨hbmem, hbaward⟩, hbkey⟩
    have hba : b = a :=
      List.inj_on_of_nodup_map achievements_keys_nodup hbmem ha hbkey
    rwa [hba] at hbaward
  · intro hA
    exact ⟨a, ⟨ha, hA⟩, rfl⟩

/-- C1: For every achievement in the fixed `ACHIEVEMENTS` list whose type is
`'assignments'` or `'study_hours'`, `checkAndAwardAchievements` awards it
(inserting a `user_achievements` row and reporting it as newly earned) if and
only if its key is not already in the student's earned set and the
corresponding aggregate counter (submission count, resp. total completed
study hours) is at least the achievement's fixed requirement; achievements
already earned are never awarded again in the same check. -/
theorem achievements_award_iff (currentlyEarned : List String) (assignments : ℕ)
    (studyHours : ℚ) (a : Achievement) (ha : a ∈ ACHIEVEMENTS) :
    (a.type = .assignments →
      (a.key ∈ checkAndAwardAchievements currentlyEarned assignments studyHours
        ↔ a.key ∉ currentlyEarned ∧ a.requirement ≤ assignments)) ∧
    (a.type = .study_hours →
      (a.key ∈ checkAndAwardAchievements currentlyEarned assignments studyHours
        ↔ a.key ∉ currentlyEarned ∧ (a.requirement : ℚ) ≤ studyHours)) := by
  constructor
  · intro hty
    rw [mem_checkAndAward_iff currentlyEarned assignments studyHours a ha]
    simp [shouldAward, achievementEarned, hty]
  · intro hty
    rw [mem_checkAndAward_iff currentlyEarned assignments studyHours a ha]
    simp [shouldAward, achievementEarned, hty]

/-- Witness for C1 at a concrete input: the first achievement
(`first_assignment`, type `'assignments'`, requirement 1) with an empty
earned set and one submission. -/
theorem achievements_award_iff_witness :
    (⟨"first_assignment", "First Steps", "Complete your first assignment",
        "CheckCircle", "#22c55e", 1, .assignments⟩ : Achievement) ∈ ACHIEVEMENTS ∧
    (((⟨"first_assignment", "First Steps", "Complete your first assignment",
        "CheckCircle", "#22c55e", 1, .assignments⟩ : Achievement).type = .assignments →
      ("first_assignment" ∈ checkAndAwardAchievements [] 1 0
        ↔ "first_assignment" ∉ ([] : List String) ∧ 1 ≤ 1)) ∧
    ((⟨"first_assignment", "First Steps", "Complete your first assignment",
        "CheckCircle", "#22c55e", 1, .assignments⟩ : Achievement).type = .study_hours →
      ("first_assignment" ∈ checkAndAwardAchievements [] 1 0
        ↔ "first_assignment" ∉ ([] : List String) ∧ ((1 : ℕ) : ℚ) ≤ 0))) :=
  ⟨by decide,
   achievements_award_iff [] 1 0
     ⟨"first_assignment", "First Steps", "Complete your first assignment",
       "CheckCircle", "#22c55e", 1, .assignments⟩ (by decide)⟩

/-! ## Pomodoro timer state machine (TimerContext, `src/unnamed/part_002`) -/

/-- `WORK_TIME = 25 * 60` seconds. -/
def WORK_TIME : ℕ := 25 * 60

/-- `BREAK_TIME = 5 * 60` seconds. -/
def BREAK_TIME : ℕ := 5 * 60

/-- A `study_sessions` row as touched by the timer: its `id`, whether
`end_time` is non-null, and its `is_active` flag.  Rows are inserted by
`startTimer` with `is_active = true` and no `end_time`. -/
structure SessionRow where
  id : ℕ
  hasEndTime : Bool
  isActive : Bool
deriving DecidableEq, Repr

/-- The `TimerProvider` state: the React state variables `timeLeft`,
`isRunning`, `isBreak`, `currentSessionId`, together with the
`study_sessions` rows this client has inserted (`rows`) and a counter
supplying fresh row ids (`nextId`, standing for the database's
`gen_random_uuid()`). -/
structure TimerState where
  timeLeft : ℕ
  isRunning : Bool
  isBreak : Bool
  currentSessionId : Option ℕ
  nextId : ℕ
  rows : List SessionRow
deriving DecidableEq, Repr

/-- The initial provider state: `timeLeft = WORK_TIME`, not running, not a
break, no current session, no rows. -/
def initialTimerState : TimerState :=
  { timeLeft := WORK_TIME
    isRunning := false
    isBreak := false
    currentSessionId := none
    nextId := 0
    rows := [] }

/-- The row update
`update({ end_time: ..., is_active: false }).eq('id', sid)`. -/
def endSessionRow (sid : ℕ) (rows : List SessionRow) : List SessionRow :=
  rows.map fun r =>
    if r.id = sid then { r with hasEndTime := true, isActive := false } else r

/-- `handleTimerComplete`: stops the countdown; if a work period with a
current session ended (`!isBreak && currentSessionId`), closes the session
row, clears `currentSessionId` and enters a break with
`timeLeft = BREAK_TIME`; otherwise returns to a work period with
`timeLeft = WORK_TIME`. -/
def handleTimerComplete (s : TimerState) : TimerState :=
  match s.isBreak, s.currentSessionId with
  | false, some sid =>
      { s with isRunning := false
               rows := endSessionRow sid s.rows
               currentSessionId := none
               isBreak := true
               timeLeft := BREAK_TIME }
  | _, _ =>
      { s with isRunning := false
               isBreak := false
               timeLeft := WORK_TIME }

/-- `startTimer`: returns unchanged when no subject is selected or no user
is logged in; otherwise sets `isRunning` and, when not in a break, inserts
a `study_sessions` row (`is_active = true`).  `insertOk` models whether
the insert succeeds; on failure the code resets `isRunning` and returns
without starting the countdown. -/
def startTimer (hasSubject hasUser insertOk : Bool) (s : TimerState) : TimerState :=
  if !hasSubject then s
  else if !hasUser then s
  else if !s.isBreak then
    if insertOk then
      { s with isRunning := true
               currentSessionId := some s.nextId
               nextId := s.nextId + 1
               rows := s.rows ++ [⟨s.nextId, false, true⟩] }
    else { s with isRunning := false }
  else { s with isRunning := true }

/-- `pauseTimer`: stops the countdown; when pausing during work with a
current session, closes the session row and clears `currentSessionId`. -/
def pauseTimer (s : TimerState) : TimerState :=
  match s.isBreak, s.currentSessionId with
  | false, some sid =>
      { s with isRunning := false
               rows := endSessionRow sid s.rows
               currentSessionId := none }
  | _, _ => { s with isRunning := false }

/-- `resetTimer`: stops the countdown, returns to a work period with
`timeLeft = WORK_TIME`, and closes the current session row if one is
active. -/
def resetTimer (s : TimerState) : TimerState :=
  match s.currentSessionId with
  | some sid =>
      { s with isRunning := false
               isBreak := false
               timeLeft := WORK_TIME
               rows := endSessionRow sid s.rows
               currentSessionId := none }
  | none =>
      { s with isRunning := false
               isBreak := false
               timeLeft := WORK_TIME }

/-- One second of the interval started by `startTimer`: only acts while
running; `setTimeLeft(prev => prev <= 1 ? (complete; 0) : prev - 1)`. -/
def tickSecond (s : TimerState) : TimerState :=
  if s.isRunning then
    if s.timeLeft ≤ 1 then handleTimerComplete { s with timeLeft := 0 }
    else { s with timeLeft := s.timeLeft - 1 }
  else s

/-- The events a user (or the interval) can fire on the provider. -/
inductive TimerEvent
  | start (hasSubject hasUser insertOk : Bool)
  | pause
  | reset
  | tick
deriving DecidableEq, Repr

/-- Applying one event to a timer state. -/
def TimerEvent.apply : TimerEvent → TimerState → TimerState
  | .start hs hu ok, s => startTimer hs hu ok s
  | .pause, s => pauseTimer s
  | .reset, s => resetTimer s
  | .tick, s => tickSecond s

/-- States reachable from the initial provider state by any sequence of
`startTimer`, `pauseTimer`, `resetTimer` and one-second ticks. -/
inductive Reachable : TimerState → Prop
  | init : Reachable initialTimerState
  | step {s : TimerState} (e : TimerEvent) : Reachable s → Reachable (e.apply s)

/-- The inductive invariant of the timer machine. -/
def TimerInv (s : TimerState) : Prop :=
  (s.isBreak = false → s.timeLeft ≤ WORK_TIME) ∧
  (s.isBreak = true → s.timeLeft ≤ BREAK_TIME) ∧
  (s.isBreak = true → s.currentSessionId = none) ∧
  (s.isRunning = true → s.isBreak = false → s.currentSessionId ≠ none)

theorem timerInv_init : TimerInv initialTimerState := by
  simp [TimerInv, initialTimerState]

theorem timerInv_step (e : TimerEvent) (s : TimerState) (h : TimerInv s) :
    TimerInv (e.apply s) := by
  obtain ⟨h1, h2, h3, h4⟩ := h
  obtain ⟨tl, ir, ib, sid, nid, rows⟩ := s
  cases e with
  | start hs hu ok =>
    cases hs <;> cases hu <;> cases ok <;> cases ib <;>
      simp_all [TimerEvent.apply, startTimer, TimerInv, WORK_TIME, BREAK_TIME]
  | pause =>
    cases ib <;> cases sid <;>
      simp_all [TimerEvent.apply, pauseTimer, TimerInv]
  | reset =>
    cases sid <;>
      simp_all [TimerEvent.apply, resetTimer, TimerInv, WORK_TIME, BREAK_TIME]
  | tick =>
    cases ir
    · exact ⟨h1, h2, h3, h4⟩
    · by_cases htl : tl ≤ 1
      · have hred : TimerEvent.tick.apply ⟨tl, true, ib, sid, nid, rows⟩
            = handleTimerComplete ⟨0, true, ib, sid, nid, rows⟩ := by
          show tickSecond _ = _
          simp [tickSecond, htl]
        rw [hred]
        cases ib
        · obtain ⟨c, hc⟩ := Option.ne_none_iff_exists'.mp (h4 rfl rfl)
          subst hc
          simp [handleTimerComplete, TimerInv, BREAK_TIME]
        · simp [handleTimerComplete, TimerInv, WORK_TIME]
      · have hred : TimerEvent.tick.apply ⟨tl, true, ib, sid, nid, rows⟩
            = ⟨tl - 1, true, ib, sid, nid, rows⟩ := by
          show tickSecond _ = _
          simp [tickSecond, htl]
        rw [hred]
        refine ⟨fun hb => ?_, fun hb => ?_, h3, h4⟩
        · exact le_trans (Nat.sub_le _ _) (h1 hb)
        · exact le_trans (Nat.sub_le _ _) (h2 hb)

theorem reachable_timerInv (s : TimerState) (h : Reachable s) : TimerInv s := by
  induction h with
  | init => exact timerInv_init
  | step e _ ih => exact timerInv_step e _ ih

/-- Iterated ticks, used to exhibit reachable states. -/
def tickN : ℕ → TimerState → TimerState
  | 0, s => s
  | n + 1, s => tickN n (tickSecond s)

theorem reachable_tickN (n : ℕ) (s : TimerState) (h : Reachable s) :
    Reachable (tickN n s) := by
  induction n generalizing s with
  | zero => exact h
  | succ n ih => exact ih (tickSecond s) (Reachable.step TimerEvent.tick h)

theorem tickN_lt (k : ℕ) (s : TimerState) (hrun : s.isRunning = true)
    (hk : k < s.timeLeft) :
    tickN k s = { s with timeLeft := s.timeLeft - k } := by
  induction k generalizing s with
  | zero =>
    obtain ⟨tl, ir, ib, sid, nid, rows⟩ := s
    simp [tickN]
  | succ k ih =>
    have h1 : ¬ s.timeLeft ≤ 1 := by omega
    have hstep : tickSecond s = { s with timeLeft := s.timeLeft - 1 } := by
      simp [tickSecond, hrun, h1]
    have hk' : k < ({ s with timeLeft := s.timeLeft - 1 } : TimerState).timeLeft := by
      show k < s.timeLeft - 1
      omega
    show tickN k (tickSecond s) = _
    rw [hstep, ih { s with timeLeft := s.timeLeft - 1 } hrun hk']
    have harith : s.timeLeft - 1 - k = s.timeLeft - (k + 1) := by omega
    obtain ⟨tl, ir, ib, sid, nid, rows⟩ := s
    simp only [TimerState.timeLeft] at harith ⊢
    rw [harith]

theorem tickN_complete (n : ℕ) (s : TimerState) (hrun : s.isRunning = true)
    (htl : s.timeLeft = n) (h1 : 1 ≤ n) :
    tickN n s = handleTimerComplete { s with timeLeft := 0 } := by
  induction n generalizing s with
  | zero => omega
  | succ k ih =>
    by_cases hk : k = 0
    · subst hk
      show tickN 0 (tickSecond s) = _
      simp [tickN, tickSecond, hrun, htl]
    · have h2 : ¬ s.timeLeft ≤ 1 := by omega
      have hstep : tickSecond s = { s with timeLeft := s.timeLeft - 1 } := by
        simp [tickSecond, hrun, h2]
      have htl' : ({ s with timeLeft := s.timeLeft - 1 } : TimerState).timeLeft = k := by
        show s.timeLeft - 1 = k
        omega
      show tickN k (tickSecond s) = _
      rw [hstep, ih { s with timeLeft := s.timeLeft - 1 } hrun htl' (by omega)]

/-- A reachable work-running state (start from the initial state). -/
def workRunningState : TimerState :=
  startTimer true true true initialTimerState

/-- A reachable break-idle state: run the started work period to
completion (`WORK_TIME` = 1500 ticks). -/
def breakIdleState : TimerState :=
  tickN WORK_TIME workRunningState

/-- A reachable break-running state: start again during the break. -/
def breakRunningState : TimerState :=
  startTimer true true true breakIdleState

theorem reachable_workRunning : Reachable workRunningState :=
  Reachable.step (TimerEvent.start true true true) Reachable.init

theorem reachable_breakIdle : Reachable breakIdleState :=
  reachable_tickN WORK_TIME workRunningState reachable_workRunning

theorem reachable_breakRunning : Reachable breakRunningState :=
  Reachable.step (TimerEvent.start true true true) reachable_breakIdle

theorem breakIdleState_eq :
    breakIdleState
      = { timeLeft := BREAK_TIME
          isRunning := false
          isBreak := true
          currentSessionId := none
          nextId := 1
          rows := [⟨0, true, false⟩] } := by
  show tickN WORK_TIME workRunningState = _
  rw [tickN_complete WORK_TIME workRunningState rfl rfl (by decide)]
  rfl

theorem breakRunningState_eq :
    breakRunningState
      = { timeLeft := BREAK_TIME
          isRunning := true
          isBreak := true
          currentSessionId := none
          nextId := 1
          rows := [⟨0, true, false⟩] } := by
  show startTimer true true true breakIdleState = _
  rw [breakIdleState_eq]
  rfl

/-- C4: the Pomodoro timer is a four-state countdown: in every state
reachable from the initial state (`isRunning = false`, `isBreak = false`,
`timeLeft = WORK_TIME`) by any sequence of `startTimer`, `pauseTimer`,
`resetTimer` and one-second ticks, `timeLeft ≤ WORK_TIME` during work and
`timeLeft ≤ BREAK_TIME` during a break (`timeLeft : ℕ`, so `0 ≤ timeLeft`
throughout), and each of the four modes given by the pair
`(isRunning, isBreak)` — work idle, work running, break idle,
break running — is realised by some reachable state. -/
theorem timer_four_state_bounds (s : TimerState) (h : Reachable s) :
    ((s.isBreak = false → s.timeLeft ≤ WORK_TIME) ∧
     (s.isBreak = true → s.timeLeft ≤ BREAK_TIME)) ∧
    (∀ r b : Bool, ∃ t : TimerState,
      Reachable t ∧ t.isRunning = r ∧ t.isBreak = b) := by
  refine ⟨⟨(reachable_timerInv s h).1, (reachable_timerInv s h).2.1⟩, ?_⟩
  intro r b
  cases r <;> cases b
  · exact ⟨initialTimerState, Reachable.init, rfl, rfl⟩
  · exact ⟨breakIdleState, reachable_breakIdle, by rw [breakIdleState_eq], by rw [breakIdleState_eq]⟩
  · exact ⟨workRunningState, reachable_workRunning, rfl, rfl⟩
  · exact ⟨breakRunningState, reachable_breakRunning,
      by rw [breakRunningState_eq], by rw [breakRunningState_eq]⟩

/-- Witness for C4 at the concrete reachable initial state. -/
theorem timer_four_state_bounds_witness :
    ((initialTimerState.isBreak = false → initialTimerState.timeLeft ≤ WORK_TIME) ∧
     (initialTimerState.isBreak = true → initialTimerState.timeLeft ≤ BREAK_TIME)) ∧
    (∀ r b : Bool, ∃ t : TimerState,
      Reachable t ∧ t.isRunning = r ∧ t.isBreak = b) :=
  timer_four_state_bounds initialTimerState Reachable.init

/-- C3: when the countdown reaches zero while running a work period, the
tick runs `handleTimerComplete`, which stops the timer, closes the active
`study_sessions` row (`end_time` set, `is_active = false`), clears
`currentSessionId`, and enters a break with `timeLeft = BREAK_TIME`
(5 minutes = 300 s); when it reaches zero during a break it returns to a
stopped work period with `isBreak = false` and `timeLeft = WORK_TIME`
(25 minutes = 1500 s), updating no row. -/
theorem timer_complete_spec (s : TimerState) (h : Reachable s)
    (hrun : s.isRunning = true) (hzero : s.timeLeft ≤ 1) :
    (s.isBreak = false →
      ∃ sid : ℕ, s.currentSessionId = some sid ∧
        tickSecond s
          = { s with isRunning := false
                     rows := endSessionRow sid s.rows
                     currentSessionId := none
                     isBreak := true
                     timeLeft := BREAK_TIME } ∧
        BREAK_TIME = 300) ∧
    (s.isBreak = true →
      tickSecond s
        = { s with isRunning := false
                   isBreak := false
                   timeLeft := WORK_TIME } ∧
      (tickSecond s).rows = s.rows ∧
      WORK_TIME = 1500) := by
  have hinv := reachable_timerInv s h
  obtain ⟨h1, h2, h3, h4⟩ := hinv
  obtain ⟨tl, ir, ib, sid, nid, rows⟩ := s
  subst hrun
  constructor
  · intro hib
    subst hib
    obtain ⟨c, hc⟩ := Option.ne_none_iff_exists'.mp (h4 rfl rfl)
    subst hc
    refine ⟨c, rfl, ?_, rfl⟩
    simp [tickSecond, hzero, handleTimerComplete]
  · intro hib
    subst hib
    have hsid : (none : Option ℕ) = sid := (h3 rfl).symm
    subst hsid
    refine ⟨?_, ?_, rfl⟩ <;> simp [tickSecond, hzero, handleTimerComplete]

/-- The work-running state one second before completion (reached from the
initial state by `startTimer` and 1499 ticks). -/
def oneSecondLeftState : TimerState :=
  { timeLeft := 1
    isRunning := true
    isBreak := false
    currentSessionId := some 0
    nextId := 1
    rows := [⟨0, false, true⟩] }

theorem reachable_oneSecondLeft : Reachable oneSecondLeftState := by
  have h := reachable_tickN 1499 workRunningState reachable_workRunning
  have he := tickN_lt 1499 workRunningState rfl (by decide)
  rw [he] at h
  exact h

/-- Witness for C3 at the concrete reachable state `oneSecondLeftState`. -/
theorem timer_complete_spec_witness :
    Reachable oneSecondLeftState ∧
    ((oneSecondLeftState.isBreak = false →
      ∃ sid : ℕ, oneSecondLeftState.currentSessionId = some sid ∧
        tickSecond oneSecondLeftState
          = { oneSecondLeftState with
                isRunning := false
                rows := endSessionRow sid oneSecondLeftState.rows
                currentSessionId := none
                isBreak := true
                timeLeft := BREAK_TIME } ∧
        BREAK_TIME = 300) ∧
    (oneSecondLeftState.isBreak = true →
      tickSecond oneSecondLeftState
        = { oneSecondLeftState with
              isRunning := false
              isBreak := false
              timeLeft := WORK_TIME } ∧
      (tickSecond oneSecondLeftState).rows = oneSecondLeftState.rows ∧
      WORK_TIME = 1500)) :=
  ⟨reachable_oneSecondLeft,
   timer_complete_spec oneSecondLeftState reachable_oneSecondLeft rfl (by decide)⟩

/-- C9: in every reachable timer state, being in a break implies
`currentSessionId = null`; `startTimer` invoked during a break inserts no
`study_sessions` row, and more generally no event fired during a break
changes the session rows: rows are created only for work periods. -/
theorem break_no_session_rows (s : TimerState) (h : Reachable s) :
    (s.isBreak = true → s.currentSessionId = none) ∧
    (∀ hasSubject hasUser insertOk : Bool, s.isBreak = true →
      (startTimer hasSubject hasUser insertOk s).rows = s.rows) ∧
    (∀ e : TimerEvent, s.isBreak = true → (e.apply s).rows = s.rows) := by
  have hinv := reachable_timerInv s h
  obtain ⟨h1, h2, h3, h4⟩ := hinv
  refine ⟨h3, ?_, ?_⟩
  · intro hs hu ok hib
    obtain ⟨tl, ir, ib, sid, nid, rows⟩ := s
    subst hib
    cases hs <;> cases hu <;> cases ok <;> simp [startTimer]
  · intro e hib
    have hsid := h3 hib
    obtain ⟨tl, ir, ib, sid, nid, rows⟩ := s
    subst hib
    simp only [TimerState.currentSessionId] at hsid
    subst hsid
    cases e with
    | start hs hu ok =>
      cases hs <;> cases hu <;> cases ok <;> simp [TimerEvent.apply, startTimer]
    | pause => simp [TimerEvent.apply, pauseTimer]
    | reset => simp [TimerEvent.apply, resetTimer]
    | tick =>
      cases ir <;> by_cases htl : tl ≤ 1 <;>
        simp [TimerEvent.apply, tickSecond, handleTimerComplete, htl]

/-- Witness for C9 at the concrete reachable break-idle state. -/
theorem break_no_session_rows_witness :
    Reachable breakIdleState ∧
    ((breakIdleState.isBreak = true → breakIdleState.currentSessionId = none) ∧
     (∀ hasSubject hasUser insertOk : Bool, breakIdleState.isBreak = true →
       (startTimer hasSubject hasUser insertOk breakIdleState).rows = breakIdleState.rows) ∧
     (∀ e : TimerEvent, breakIdleState.isBreak = true →
       (e.apply breakIdleState).rows = breakIdleState.rows)) :=
  ⟨reachable_breakIdle, break_no_session_rows breakIdleState reachable_breakIdle⟩

/-! ## Study sessions: page statistics (src/src/pages/StudyTimer.tsx) and
leaderboard (`src/unnamed/part_011`).  Timestamps are milliseconds since
the epoch. -/

/-- A `study_sessions` row as fetched by the statistics pages:
`user_id`, `start_time`, and a possibly-null `end_time`. -/
structure StudySessionRow where
  user_id : String
  start_time : ℕ
  end_time : Option ℕ
deriving DecidableEq, Repr

/-- A `submissions` row as fetched by the leaderboard:
`student_id` and `completed_at`. -/
structure SubmissionRow where
  student_id : String
  completed_at : ℕ
deriving DecidableEq, Repr

/-- A session's duration in minutes:
`(new Date(end_time).getTime() - new Date(start_time).getTime()) / 60000`,
a JS number modelled as a rational.  Only applied to rows whose
`end_time` is non-null; `getD 0` is never reached there. -/
def durationMinutes (s : StudySessionRow) : ℚ :=
  ((s.end_time.getD 0 : ℚ) - (s.start_time : ℚ)) / 60000

/-- Milliseconds per day; `setHours(0,0,0,0)` day truncation is modelled
as the day index `t / msPerDay`. -/
def msPerDay : ℕ := 86400000

/-- `sessionDate.setHours(0,0,0,0); sessionDate.getTime() === today.getTime()`. -/
def sameDay (a b : ℕ) : Bool := a / msPerDay == b / msPerDay

/-- Ordering used by the `fetchSessions` query:
`.order('start_time', { ascending: false })`. -/
def startTimeGe (a b : StudySessionRow) : Prop := b.start_time ≤ a.start_time

instance : DecidableRel startTimeGe := fun a b =>
  inferInstanceAs (Decidable (b.start_time ≤ a.start_time))

/-- The rows returned by the `fetchSessions` query: the user's sessions
ordered by `start_time` descending, limited to 10 (`.limit(10)`). -/
def fetchSessionsRecent (sessions : List StudySessionRow) : List StudySessionRow :=
  (sessions.insertionSort startTimeGe).take 10

/-- The filter applied to the fetched rows: started today and
`end_time` non-null (truthy). -/
def isTodayCompleted (today : ℕ) (s : StudySessionRow) : Bool :=
  sameDay s.start_time today && s.end_time.isSome

/-- `todaySessions` in `fetchSessions`: the fetched (limit-10) rows
filtered to today's completed sessions. -/
def todaySessions (today : ℕ) (sessions : List StudySessionRow) : List StudySessionRow :=
  (fetchSessionsRecent sessions).filter (isTodayCompleted today)

/-- The "Sessions Today" statistic (`setSessionsToday`). -/
def sessionsToday (today : ℕ) (sessions : List StudySessionRow) : ℕ :=
  (todaySessions today sessions).length

/-- The "Focus Time Today" statistic (`setTotalToday(Math.round(totalMinutes))`). -/
def totalToday (today : ℕ) (sessions : List StudySessionRow) : ℤ :=
  round (((todaySessions today sessions).map durationMinutes).sum)

/-- Modelled from the spec's words for C5: the aggregation over *all* of
the user's study sessions that started today and have a non-null
`end_time`, with no limit to any subset. -/
def allTodaySessions (today : ℕ) (sessions : List StudySessionRow) : List StudySessionRow :=
  sessions.filter (isTodayCompleted today)

/-- Eleven completed sessions on day 0, used to exhibit the `.limit(10)`
restriction. -/
def elevenSessions : List StudySessionRow :=
  [ ⟨"u", 0, some 600000⟩
  , ⟨"u", 1000, some 601000⟩
  , ⟨"u", 2000, some 602000⟩
  , ⟨"u", 3000, some 603000⟩
  , ⟨"u", 4000, some 604000⟩
  , ⟨"u", 5000, some 605000⟩
  , ⟨"u", 6000, some 606000⟩
  , ⟨"u", 7000, some 607000⟩
  , ⟨"u", 8000, some 608000⟩
  , ⟨"u", 9000, some 609000⟩
  , ⟨"u", 10000, some 610000⟩ ]

/-- C5 counterexample: with eleven completed sessions started today, the
page counts only 10 of them ("Sessions Today" = 10), while the claim's
"count over all of the user's sessions that started today with non-null
end_time" is 11: the statistics are restricted to the 10 most recent
sessions. -/
theorem studyTimer_stats_counterexample :
    sessionsToday 0 elevenSessions = 10 ∧
    (allTodaySessions 0 elevenSessions).length = 11 := by
  constructor
  · decide
  · decide

/-- C5 (amended): whenever the user has at most 10 study sessions in
total (so the `.limit(10)` query returns them all), "Sessions Today"
equals the count over all of the user's sessions that started today and
have a non-null `end_time`, and "Focus Time Today" equals the rounded
sum of their durations in minutes; in general the statistics cover only
the user's 10 most recent sessions by `start_time`. -/
theorem studyTimer_stats_spec (today : ℕ) (sessions : List StudySessionRow)
    (hlen : sessions.length ≤ 10) :
    sessionsToday today sessions = (allTodaySessions today sessions).length ∧
    totalToday today sessions
      = round (((allTodaySessions today sessions).map durationMinutes).sum) := by
  have hperm : List.Perm (fetchSessionsRecent sessions) sessions := by
    unfold fetchSessionsRecent
    rw [List.take_of_length_le]
    · exact List.perm_insertionSort _ _
    · rw [List.length_insertionSort]
      exact hlen
  have hfil : List.Perm (todaySessions today sessions) (allTodaySessions today sessions) :=
    hperm.filter _
  refine ⟨hfil.length_eq, ?_⟩
  unfold totalToday
  rw [(hfil.map durationMinutes).sum_eq]

/-- Witness for C5 (amended) at a concrete two-session input. -/
theorem studyTimer_stats_spec_witness :
    ([⟨"u", 0, some 600000⟩, ⟨"u", 1000, none⟩] : List StudySessionRow).length ≤ 10 ∧
    (sessionsToday 0 [⟨"u", 0, some 600000⟩, ⟨"u", 1000, none⟩]
      = (allTodaySessions 0 [⟨"u", 0, some 600000⟩, ⟨"u", 1000, none⟩]).length ∧
    totalToday 0 [⟨"u", 0, some 600000⟩, ⟨"u", 1000, none⟩]
      = round (((allTodaySessions 0 [⟨"u", 0, some 600000⟩, ⟨"u", 1000, none⟩]).map durationMinutes).sum)) :=
  ⟨by decide,
   studyTimer_stats_spec 0 [⟨"u", 0, some 600000⟩, ⟨"u", 1000, none⟩] (by decide)⟩

/-! ## Leaderboard (`src/unnamed/part_011`, `fetchLeaderboard`) -/

/-- One leaderboard entry.  The display fields (`full_name`,
`avatar_url`, looked up from `profiles`) are omitted; the claim concerns
ids and scores. -/
structure LeaderboardEntry where
  id : String
  assignments_completed : ℕ
  study_minutes : ℤ
  total_score : ℤ
deriving DecidableEq, Repr

/-- The submissions the leaderboard query fetches: all rows, or
`completed_at >= startDate` when a period is selected
(`.gte('completed_at', startDate)`). -/
def periodSubmissions (startDate : Option ℕ) (subs : List SubmissionRow) : List SubmissionRow :=
  match startDate with
  | some d => subs.filter (fun s => d ≤ s.completed_at)
  | none => subs

/-- The study sessions the leaderboard query fetches: rows with non-null
`end_time` (`.not('end_time', 'is', null)`), further restricted to
`start_time >= startDate` when a period is selected. -/
def periodSessions (startDate : Option ℕ) (sessions : List StudySessionRow) : List StudySessionRow :=
  match startDate with
  | some d => (sessions.filter (fun s => s.end_time.isSome)).filter (fun s => d ≤ s.start_time)
  | none => sessions.filter (fun s => s.end_time.isSome)

/-- `submissionCounts[userId]`: the number of fetched submissions whose
`student_id` is the given user. -/
def submissionCount (uid : String) (subs : List SubmissionRow) : ℕ :=
  (subs.filter (fun s => s.student_id == uid)).length

/-- `studyMinutes[userId]`: the summed durations, in minutes, of the
fetched sessions of the given user (a JS float, modelled as a rational;
0 when the user has none). -/
def studyMinutesTotal (uid : String) (sessions : List StudySessionRow) : ℚ :=
  ((sessions.filter (fun s => s.user_id == uid)).map durationMinutes).sum

/-- Building one leaderboard entry:
`minutes = Math.round(studyMinutes[userId] || 0)` and
`total_score = assignments * 10 + Math.floor(minutes / 5)`. -/
def buildEntry (subs : List SubmissionRow) (sessions : List StudySessionRow)
    (uid : String) : LeaderboardEntry :=
  let assignments := submissionCount uid subs
  let minutes : ℤ := round (studyMinutesTotal uid sessions)
  { id := uid
    assignments_completed := assignments
    study_minutes := minutes
    total_score := (assignments : ℤ) * 10 + Int.fdiv minutes 5 }

/-- The sort comparator `(a, b) => b.total_score - a.total_score`:
non-increasing total score. -/
def scoreGe (a b : LeaderboardEntry) : Prop := b.total_score ≤ a.total_score

instance : DecidableRel scoreGe := fun a b =>
  inferInstanceAs (Decidable (b.total_score ≤ a.total_score))

instance : IsTotal LeaderboardEntry scoreGe :=
  ⟨fun a b => le_total b.total_score a.total_score⟩

instance : IsTrans LeaderboardEntry scoreGe :=
  ⟨fun _ _ _ hab hbc => le_trans hbc hab⟩

/-- `fetchLeaderboard`: fetch period-filtered submissions and completed
sessions, take the set of user ids appearing in either, build one entry
per user, and sort by total score descending. -/
def fetchLeaderboard (startDate : Option ℕ) (subs : List SubmissionRow)
    (sessions : List StudySessionRow) : List LeaderboardEntry :=
  let submissions := periodSubmissions startDate subs
  let sessionsF := periodSessions startDate sessions
  let userIds := (submissions.map (fun s => s.student_id)
    ++ sessionsF.map (fun s => s.user_id)).dedup
  let entries := userIds.map (buildEntry submissions sessionsF)
  entries.insertionSort scoreGe

/-- Modelled from the spec's words for C6: "10 times the number of the
student's submissions plus one point per full 5 minutes of the student's
completed study time" — the floor of the exact total minutes divided
by 5, not of the rounded minutes. -/
def specTotalScore (subCount : ℕ) (totalMinutes : ℚ) : ℤ :=
  (subCount : ℤ) * 10 + ⌊totalMinutes / 5⌋

/-- C6 counterexample: a single completed session of 4.6 minutes
(276000 ms).  The code rounds the total minutes to 5 before dividing and
scores 1 point, while the claim’s "one point per full 5 minutes of the
student's completed study time" gives ⌊4.6 / 5⌋ = 0. -/
theorem leaderboard_score_counterexample :
    (fetchLeaderboard none [] [⟨"u1", 0, some 276000⟩]).map (fun e => e.total_score) = [1] ∧
    studyMinutesTotal "u1" (periodSessions none [⟨"u1", 0, some 276000⟩]) = 46 / 10 ∧
    specTotalScore (submissionCount "u1" (periodSubmissions none [])) (46 / 10) = 0 := by
  have hsess : periodSessions none [(⟨"u1", 0, some 276000⟩ : StudySessionRow)]
      = [⟨"u1", 0, some 276000⟩] := by
    simp [periodSessions]
  have hmin1 : studyMinutesTotal "u1" [(⟨"u1", 0, some 276000⟩ : StudySessionRow)]
      = 46 / 10 := by
    simp [studyMinutesTotal, durationMinutes]
    norm_num
  have hround : round ((46 : ℚ) / 10) = 5 := by
    rw [round_eq]
    norm_num
  have hscore : (buildEntry [] [(⟨"u1", 0, some 276000⟩ : StudySessionRow)] "u1").total_score
      = 1 := by
    show (submissionCount "u1" [] : ℤ) * 10
        + Int.fdiv (round (studyMinutesTotal "u1" [(⟨"u1", 0, some 276000⟩ : StudySessionRow)])) 5
      = 1
    rw [hmin1, hround]
    decide
  have hlb : fetchLeaderboard none [] [(⟨"u1", 0, some 276000⟩ : StudySessionRow)]
      = [buildEntry [] [⟨"u1", 0, some 276000⟩] "u1"] := by
    simp [fetchLeaderboard, periodSubmissions, hsess, List.insertionSort]
  refine ⟨?_, ?_, ?_⟩
  · rw [hlb]
    simp only [List.map_cons, List.map_nil, hscore]
  · rw [hsess, hmin1]
  · show ((submissionCount "u1" (periodSubmissions none []) : ℤ) * 10
      + ⌊((46 : ℚ) / 10) / 5⌋) = 0
    have h0 : submissionCount "u1" (periodSubmissions none []) = 0 := by
      simp [submissionCount, periodSubmissions]
    rw [h0, show ((46 : ℚ) / 10) / 5 = 46 / 50 by norm_num]
    norm_num

/-- C6 (amended): the leaderboard contains exactly one entry per user
with at least one fetched submission or completed study session in the
selected period, sorted in non-increasing order of `total_score`, and
each entry's `total_score` is 10 per submission plus one point per full
5 minutes of the user's total study minutes *rounded to the nearest
minute* (`Math.floor(Math.round(minutes) / 5)`), rather than of the
exact study time. -/
theorem fetchLeaderboard_spec (startDate : Option ℕ) (subs : List SubmissionRow)
    (sessions : List StudySessionRow) :
    (∀ uid : String,
      (∃ e ∈ fetchLeaderboard startDate subs sessions, e.id = uid) ↔
        ((∃ s ∈ periodSubmissions startDate subs, s.student_id = uid) ∨
         (∃ s ∈ periodSessions startDate sessions, s.user_id = uid))) ∧
    ((fetchLeaderboard startDate subs sessions).map (fun e => e.id)).Nodup ∧
    (fetchLeaderboard startDate subs sessions).Sorted scoreGe ∧
    (∀ e ∈ fetchLeaderboard startDate subs sessions,
      e.total_score
        = (submissionCount e.id (periodSubmissions startDate subs) : ℤ) * 10
          + Int.fdiv (round (studyMinutesTotal e.id (periodSessions startDate sessions))) 5) := by
  refine ⟨?_, ?_, ?_, ?_⟩
  · intro uid
    unfold fetchLeaderboard
    simp only [List.mem_insertionSort, List.mem_map, List.mem_dedup, List.mem_append]
    constructor
    · rintro ⟨e, ⟨u, hu, hbuild⟩, hid⟩
      have huid : u = uid := by
        rw [← hid, ← hbuild]
        rfl
      subst huid
      exact hu
    · intro h
      exact ⟨buildEntry (periodSubmissions startDate subs) (periodSessions startDate sessions) uid,
        ⟨uid, h, rfl⟩, rfl⟩
  · unfold fetchLeaderboard
    have hperm := List.perm_insertionSort scoreGe
      (((periodSubmissions startDate subs).map (fun s => s.student_id)
        ++ (periodSessions startDate sessions).map (fun s => s.user_id)).dedup.map
        (buildEntry (periodSubmissions startDate subs) (periodSessions startDate sessions)))
    rw [List.Perm.nodup_iff (List.Perm.map (fun e => e.id) hperm)]
    rw [List.map_map]
    rw [List.map_id'']
    · exact List.nodup_dedup _
    · exact fun x => rfl
  · exact List.sorted_insertionSort scoreGe _
  · intro e he
    unfold fetchLeaderboard at he
    rw [List.mem_insertionSort] at he
    obtain ⟨u, _, hbuild⟩ := List.mem_map.mp he
    rw [← hbuild]
    rfl

/-- Witness for C6 (amended) at a concrete input: one submission by "a"
and one 10-minute completed session by "b". -/
theorem fetchLeaderboard_spec_witness :
    (∀ uid : String,
      (∃ e ∈ fetchLeaderboard none [⟨"a", 5⟩] [⟨"b", 0, some 600000⟩], e.id = uid) ↔
        ((∃ s ∈ periodSubmissions none [⟨"a", 5⟩], s.student_id = uid) ∨
         (∃ s ∈ periodSessions none [⟨"b", 0, some 600000⟩], s.user_id = uid))) ∧
    ((fetchLeaderboard none [⟨"a", 5⟩] [⟨"b", 0, some 600000⟩]).map (fun e => e.id)).Nodup ∧
    (fetchLeaderboard none [⟨"a", 5⟩] [⟨"b", 0, some 600000⟩]).Sorted scoreGe ∧
    (∀ e ∈ fetchLeaderboard none [⟨"a", 5⟩] [⟨"b", 0, some 600000⟩],
      e.total_score
        = (submissionCount e.id (periodSubmissions none [⟨"a", 5⟩]) : ℤ) * 10
          + Int.fdiv (round (studyMinutesTotal e.id (periodSessions none [⟨"b", 0, some 600000⟩]))) 5) :=
  fetchLeaderboard_spec none [⟨"a", 5⟩] [⟨"b", 0, some 600000⟩]

/-! ## Optimistic mutations and error rollback
(`src/src/hooks/useAssignments.ts`, `useDoubts` in `src/unnamed/part_012`).
Each mutation's `onMutate` snapshots the cached list for its query key
(`getQueryData`, `none` when nothing is cached), applies an optimistic
transform via `setQueryData(key, old => f(old || []))`, and on error
restores the snapshot only when it is defined
(`if (context?.previousX) setQueryData(key, previousX)`). -/

/-- A cached `assignments` row (the hook's `Assignment` interface). -/
structure AssignmentRow where
  id : String
  title : String
  description : Option String
  due_date : Option String
  teacher_id : String
  created_at : String
deriving DecidableEq, Repr

/-- A cached `submissions` row (the hook's `Submission` interface). -/
structure SubmissionItem where
  id : String
  assignment_id : String
  completed_at : String
  duration_seconds : ℕ
  reflection : Option String
deriving DecidableEq, Repr

/-- Profile display data attached to doubts and replies. -/
structure ProfileInfo where
  full_name : String
  avatar_url : Option String
deriving DecidableEq, Repr

/-- A cached doubt reply (the hook's `Reply` interface). -/
structure ReplyRow where
  id : String
  reply : String
  teacher_id : String
  created_at : String
  teacher : Option ProfileInfo
deriving DecidableEq, Repr

/-- A cached doubt (the hook's `Doubt` interface); `assignment` holds the
optional assignment title. -/
structure DoubtRow where
  id : String
  question : String
  student_id : String
  assignment_id : String
  created_at : String
  assignment : Option String
  student : Option ProfileInfo
  replies : List ReplyRow
deriving DecidableEq, Repr

/-- `setQueryData(key, (old) => f(old || []))`: the cache always holds a
value afterwards. -/
def optimisticSet {α : Type} (f : List α → List α) (cache : Option (List α)) :
    Option (List α) :=
  some (f (cache.getD []))

/-- The `onError` handler:
`if (context?.previousX) { setQueryData(key, context.previousX) }` — a
snapshot array (even an empty one) is truthy and is restored; an
`undefined` snapshot leaves the cache as the optimistic update left it. -/
def rollbackOnError {α : Type} (snapshot cacheAfter : Option (List α)) :
    Option (List α) :=
  match snapshot with
  | some prev => some prev
  | none => cacheAfter

/-- The cache evolution of a failed mutation: snapshot the cache, apply
the optimistic transform, then run the error rollback. -/
def failedMutation {α : Type} (f : List α → List α) (cache : Option (List α)) :
    Option (List α) :=
  rollbackOnError cache (optimisticSet f cache)

/-- `createAssignmentMutation.onMutate`: append the optimistic assignment
(`id = temp-${Date.now()}`, `created_at = new Date().toISOString()`,
modelled as the decimal print of `now`). -/
def createAssignmentTransform (now : ℕ) (uid title : String)
    (description due_date : Option String) : List AssignmentRow → List AssignmentRow :=
  fun old => old ++
    [{ id := "temp-" ++ toString now
       title := title
       description := description
       due_date := due_date
       teacher_id := uid
       created_at := toString now }]

/-- `updateAssignmentMutation.onMutate`:
`old.map(a => a.id === id ? { ...a, ...data } : a)`. -/
def updateAssignmentTransform (id title : String)
    (description due_date : Option String) : List AssignmentRow → List AssignmentRow :=
  fun old => old.map fun a =>
    if a.id = id then
      { a with title := title, description := description, due_date := due_date }
    else a

/-- `deleteAssignmentMutation.onMutate`: `old.filter(a => a.id !== id)`. -/
def deleteAssignmentTransform (id : String) : List AssignmentRow → List AssignmentRow :=
  fun old => old.filter fun a => a.id != id

/-- `submitAssignmentMutation.onMutate`: append the optimistic submission. -/
def submitAssignmentTransform (now : ℕ) (assignmentId reflection : String) :
    List SubmissionItem → List SubmissionItem :=
  fun old => old ++
    [{ id := "temp-" ++ toString now
       assignment_id := assignmentId
       completed_at := toString now
       duration_seconds := 0
       reflection := some reflection.trim }]

/-- `createDoubtMutation.onMutate`: prepend the optimistic doubt
(`[optimisticDoubt, ...old]`); `assignmentTitle` is the looked-up title,
`userFullName` the user's metadata name (`|| 'You'`). -/
def createDoubtTransform (now : ℕ) (uid : String) (userFullName : Option String)
    (assignmentTitle : Option String) (assignment_id question : String) :
    List DoubtRow → List DoubtRow :=
  fun old =>
    { id := "temp-" ++ toString now
      question := question.trim
      student_id := uid
      assignment_id := assignment_id
      created_at := toString now
      assignment := assignmentTitle
      student := some { full_name := userFullName.getD "You", avatar_url := none }
      replies := [] } :: old

/-- `deleteDoubtMutation.onMutate`: `old.filter(d => d.id !== doubtId)`. -/
def deleteDoubtTransform (doubtId : String) : List DoubtRow → List DoubtRow :=
  fun old => old.filter fun d => d.id != doubtId

/-- `replyMutation.onMutate`: append the optimistic reply to the matching
doubt's reply list. -/
def replyTransform (now : ℕ) (uid : String) (userFullName : Option String)
    (doubtId replyText : String) : List DoubtRow → List DoubtRow :=
  fun old => old.map fun d =>
    if d.id = doubtId then
      { d with replies := d.replies ++
        [{ id := "temp-" ++ toString now
           reply := replyText.trim
           teacher_id := uid
           created_at := toString now
           teacher := some { full_name := userFullName.getD "You", avatar_url := none } }] }
    else d

/-- The assignments cache after a failed `createAssignment`. -/
def failedCreateAssignment (now : ℕ) (uid title : String)
    (description due_date : Option String) (cache : Option (List AssignmentRow)) :
    Option (List AssignmentRow) :=
  failedMutation (createAssignmentTransform now uid title description due_date) cache

/-- The assignments cache after a failed `updateAssignment`. -/
def failedUpdateAssignment (id title : String) (description due_date : Option String)
    (cache : Option (List AssignmentRow)) : Option (List AssignmentRow) :=
  failedMutation (updateAssignmentTransform id title description due_date) cache

/-- The assignments cache after a failed `deleteAssignment`. -/
def failedDeleteAssignment (id : String) (cache : Option (List AssignmentRow)) :
    Option (List AssignmentRow) :=
  failedMutation (deleteAssignmentTransform id) cache

/-- The submissions cache after a failed `submitAssignment`. -/
def failedSubmitAssignment (now : ℕ) (assignmentId reflection : String)
    (cache : Option (List SubmissionItem)) : Option (List SubmissionItem) :=
  failedMutation (submitAssignmentTransform now assignmentId reflection) cache

/-- The doubts cache after a failed `createDoubt`. -/
def failedCreateDoubt (now : ℕ) (uid : String) (userFullName : Option String)
    (assignmentTitle : Option String) (assignment_id question : String)
    (cache : Option (List DoubtRow)) : Option (List DoubtRow) :=
  failedMutation (createDoubtTransform now uid userFullName assignmentTitle assignment_id question) cache

/-- The doubts cache after a failed `deleteDoubt`. -/
def failedDeleteDoubt (doubtId : String) (cache : Option (List DoubtRow)) :
    Option (List DoubtRow) :=
  failedMutation (deleteDoubtTransform doubtId) cache

/-- The doubts cache after a failed `sendReply`. -/
def failedReply (now : ℕ) (uid : String) (userFullName : Option String)
    (doubtId replyText : String) (cache : Option (List DoubtRow)) :
    Option (List DoubtRow) :=
  failedMutation (replyTransform now uid userFullName doubtId replyText) cache

/-- C2 counterexample: `createAssignment` failing while the assignments
query cache holds no value (`getQueryData` returns `undefined`).  The
`onError` guard `if (context?.previousAssignments)` skips the restore, so
the optimistic entry survives the error and the cache is not restored to
the pre-mutation snapshot (`none`). -/
theorem failed_mutation_counterexample :
    failedCreateAssignment 0 "t1" "A1" none none none
      = some [{ id := "temp-0", title := "A1", description := none,
                due_date := none, teacher_id := "t1", created_at := "0" }] ∧
    failedCreateAssignment 0 "t1" "A1" none none none ≠ none := by
  constructor
  · rfl
  · decide

/-- C2 (amended): for every mutation of `useAssignments`
(`createAssignment`, `updateAssignment`, `deleteAssignment`,
`submitAssignment`) and of `useDoubts` (`createDoubt`, `deleteDoubt`,
`sendReply`), if the server mutation fails *and a snapshot existed* (the
query cache held a value when `onMutate` ran) then the cached list is
restored to exactly that snapshot; when nothing was cached the restore is
skipped and the optimistic entry survives the error. -/
theorem failed_mutation_restores_snapshot :
    (∀ (now : ℕ) (uid title : String) (description due_date : Option String)
        (l : List AssignmentRow),
      failedCreateAssignment now uid title description due_date (some l) = some l) ∧
    (∀ (id title : String) (description due_date : Option String)
        (l : List AssignmentRow),
      failedUpdateAssignment id title description due_date (some l) = some l) ∧
    (∀ (id : String) (l : List AssignmentRow),
      failedDeleteAssignment id (some l) = some l) ∧
    (∀ (now : ℕ) (assignmentId reflection : String) (l : List SubmissionItem),
      failedSubmitAssignment now assignmentId reflection (some l) = some l) ∧
    (∀ (now : ℕ) (uid : String) (userFullName assignmentTitle : Option String)
        (assignment_id question : String) (l : List DoubtRow),
      failedCreateDoubt now uid userFullName assignmentTitle assignment_id question (some l)
        = some l) ∧
    (∀ (doubtId : String) (l : List DoubtRow),
      failedDeleteDoubt doubtId (some l) = some l) ∧
    (∀ (now : ℕ) (uid : String) (userFullName : Option String)
        (doubtId replyText : String) (l : List DoubtRow),
      failedReply now uid userFullName doubtId replyText (some l) = some l) :=
  ⟨fun _ _ _ _ _ _ => rfl, fun _ _ _ _ _ => rfl, fun _ _ => rfl, fun _ _ _ _ => rfl,
   fun _ _ _ _ _ _ _ => rfl, fun _ _ => rfl, fun _ _ _ _ _ _ => rfl⟩

/-! ## The send-reply-notification serverless function
(src/supabase/functions/send-reply-notification/index.ts) -/

/-- The JSON body destructured by the handler
(`ReplyNotificationRequest`). -/
structure EmailPayload where
  studentEmail : String
  studentName : String
  teacherName : String
  assignmentTitle : String
  question : String
  reply : String
deriving DecidableEq, Repr

/-- An incoming request, with the outcomes of its two effectful steps:
`await req.json()` (`jsonBody`, an exception carries its message) and
`resend.emails.send(...)` (`sendResult`; `ok` carries the response data;
the code treats any resolved promise as success). -/
structure EdgeRequest where
  method : String
  jsonBody : Except String EmailPayload
  sendResult : Except String String
deriving Repr

/-- The possible response bodies: `null` (the OPTIONS reply),
`{ success: true, data }`, or `{ success: false, error }`. -/
inductive ResponseBody
  | empty
  | success (data : String)
  | failure (error : String)
deriving DecidableEq, Repr

/-- A response: status, whether the CORS headers are attached, whether
`Content-Type: application/json` is set, and the body. -/
structure EdgeResponse where
  status : ℕ
  hasCorsHeaders : Bool
  contentTypeJson : Bool
  body : ResponseBody
deriving DecidableEq, Repr

/-- The `handler`: an OPTIONS request gets a CORS-headers-only response;
otherwise the try block parses the body and sends the email, returning
200 `{ success: true, data }`, and the catch block turns any thrown
error into 500 `{ success: false, error: error.message }`. -/
def handler (req : EdgeRequest) : EdgeResponse :=
  if req.method = "OPTIONS" then
    { status := 200, hasCorsHeaders := true, contentTypeJson := false, body := .empty }
  else
    match req.jsonBody with
    | .error e =>
      { status := 500, hasCorsHeaders := true, contentTypeJson := true, body := .failure e }
    | .ok _ =>
      match req.sendResult with
      | .ok data =>
        { status := 200, hasCorsHeaders := true, contentTypeJson := true, body := .success data }
      | .error e =>
        { status := 500, hasCorsHeaders := true, contentTypeJson := true, body := .failure e }

/-- C7: for every request, the handler replies to OPTIONS with a
CORS-headers-only response; otherwise, when parsing and sending both
succeed it returns HTTP 200 with `{ success: true, data }` carrying the
send response, when a step throws it returns HTTP 500 with
`{ success: false, error }` carrying exactly the thrown error's message —
and these three are the only possible outcomes (every non-OPTIONS 500
arises from a thrown parse or send error whose message it carries). -/
theorem handler_outcomes (req : EdgeRequest) :
    (req.method = "OPTIONS" →
      handler req
        = { status := 200, hasCorsHeaders := true, contentTypeJson := false,
            body := .empty }) ∧
    (req.method ≠ "OPTIONS" →
      (∀ p d, req.jsonBody = .ok p → req.sendResult = .ok d →
        handler req
          = { status := 200, hasCorsHeaders := true, contentTypeJson := true,
              body := .success d }) ∧
      (∀ e, req.jsonBody = .error e →
        handler req
          = { status := 500, hasCorsHeaders := true, contentTypeJson := true,
              body := .failure e }) ∧
      (∀ p e, req.jsonBody = .ok p → req.sendResult = .error e →
        handler req
          = { status := 500, hasCorsHeaders := true, contentTypeJson := true,
              body := .failure e })) ∧
    (handler req).hasCorsHeaders = true ∧
    (handler req
        = { status := 200, hasCorsHeaders := true, contentTypeJson := false,
            body := .empty } ∨
     (∃ p d, req.jsonBody = .ok p ∧ req.sendResult = .ok d ∧
        handler req
          = { status := 200, hasCorsHeaders := true, contentTypeJson := true,
              body := .success d }) ∨
     (∃ e, handler req
          = { status := 500, hasCorsHeaders := true, contentTypeJson := true,
              body := .failure e } ∧
        (req.jsonBody = .error e ∨
         ∃ p, req.jsonBody = .ok p ∧ req.sendResult = .error e))) := by
  obtain ⟨m, jb, sr⟩ := req
  by_cases hm : m = "OPTIONS"
  · subst hm
    refine ⟨fun _ => rfl, fun h => absurd rfl h, rfl, Or.inl rfl⟩
  · cases jb with
    | error e0 =>
      refine ⟨fun h => absurd h hm, fun _ => ⟨?_, ?_, ?_⟩, by simp [handler, hm], ?_⟩
      · intro p d hp _
        exact absurd hp (by simp)
      · intro e he
        cases he
        simp [handler, hm]
      · intro p e hp _
        exact absurd hp (by simp)
      · exact Or.inr (Or.inr ⟨e0, by simp [handler, hm], Or.inl rfl⟩)
    | ok p0 =>
      cases sr with
      | ok d0 =>
        refine ⟨fun h => absurd h hm, fun _ => ⟨?_, ?_, ?_⟩, by simp [handler, hm], ?_⟩
        · intro p d hp hd
          cases hp
          cases hd
          simp [handler, hm]
        · intro e he
          exact absurd he (by simp)
        · intro p e _ hd
          exact absurd hd (by simp)
        · exact Or.inr (Or.inl ⟨p0, d0, rfl, rfl, by simp [handler, hm]⟩)
      | error e0 =>
        refine ⟨fun h => absurd h hm, fun _ => ⟨?_, ?_, ?_⟩, by simp [handler, hm], ?_⟩
        · intro p d _ hd
          exact absurd hd (by simp)
        · intro e he
          exact absurd he (by simp)
        · intro p e _ hd
          cases hd
          simp [handler, hm]
        · exact Or.inr (Or.inr ⟨e0, by simp [handler, hm], Or.inr ⟨p0, rfl, rfl⟩⟩)

/-- Witness for C7 at a concrete POST request whose parse and send both
succeed. -/
theorem handler_outcomes_witness :
    (("POST" : String) = "OPTIONS" →
      handler ⟨"POST", .ok ⟨"s@e", "S", "T", "A", "q", "r"⟩, .ok "id1"⟩
        = { status := 200, hasCorsHeaders := true, contentTypeJson := false,
            body := .empty }) ∧
    (("POST" : String) ≠ "OPTIONS" →
      (∀ p d, (Except.ok ⟨"s@e", "S", "T", "A", "q", "r"⟩ : Except String EmailPayload) = .ok p →
          (Except.ok "id1" : Except String String) = .ok d →
        handler ⟨"POST", .ok ⟨"s@e", "S", "T", "A", "q", "r"⟩, .ok "id1"⟩
          = { status := 200, hasCorsHeaders := true, contentTypeJson := true,
              body := .success d }) ∧
      (∀ e, (Except.ok ⟨"s@e", "S", "T", "A", "q", "r"⟩ : Except String EmailPayload) = .error e →
        handler ⟨"POST", .ok ⟨"s@e", "S", "T", "A", "q", "r"⟩, .ok "id1"⟩
          = { status := 500, hasCorsHeaders := true, contentTypeJson := true,
              body := .failure e }) ∧
      (∀ p e, (Except.ok ⟨"s@e", "S", "T", "A", "q", "r"⟩ : Except String EmailPayload) = .ok p →
          (Except.ok "id1" : Except String String) = .error e →
        handler ⟨"POST", .ok ⟨"s@e", "S", "T", "A", "q", "r"⟩, .ok "id1"⟩
          = { status := 500, hasCorsHeaders := true, contentTypeJson := true,
              body := .failure e })) ∧
    (handler ⟨"POST", .ok ⟨"s@e", "S", "T", "A", "q", "r"⟩, .ok "id1"⟩).hasCorsHeaders = true ∧
    (handler ⟨"POST", .ok ⟨"s@e", "S", "T", "A", "q", "r"⟩, .ok "id1"⟩
        = { status := 200, hasCorsHeaders := true, contentTypeJson := false,
            body := .empty } ∨
     (∃ p d, (Except.ok ⟨"s@e", "S", "T", "A", "q", "r"⟩ : Except String EmailPayload) = .ok p ∧
        (Except.ok "id1" : Except String String) = .ok d ∧
        handler ⟨"POST", .ok ⟨"s@e", "S", "T", "A", "q", "r"⟩, .ok "id1"⟩
          = { status := 200, hasCorsHeaders := true, contentTypeJson := true,
              body := .success d }) ∨
     (∃ e, handler ⟨"POST", .ok ⟨"s@e", "S", "T", "A", "q", "r"⟩, .ok "id1"⟩
          = { status := 500, hasCorsHeaders := true, contentTypeJson := true,
              body := .failure e } ∧
        ((Except.ok ⟨"s@e", "S", "T", "A", "q", "r"⟩ : Except String EmailPayload) = .error e ∨
         ∃ p, (Except.ok ⟨"s@e", "S", "T", "A", "q", "r"⟩ : Except String EmailPayload) = .ok p ∧
           (Except.ok "id1" : Except String String) = .error e))) :=
  handler_outcomes ⟨"POST", .ok ⟨"s@e", "S", "T", "A", "q", "r"⟩, .ok "id1"⟩

/-! ## Row-level security policies (the repository's SQL migrations,
`CREATE POLICY` statements) and the client's query construction.  Each policy
is the boolean `USING` / `WITH CHECK` expression of the corresponding
`CREATE POLICY` statement, evaluated at `auth.uid()` (the requesting
user's id) and the row. -/

/-- The `app_role` enum. -/
inductive Role
  | student
  | teacher
deriving DecidableEq, Repr

/-- The requesting user: `auth.uid()` and the roles recorded for it in
`user_roles`. -/
structure DbUser where
  id : String
  roles : List Role
deriving DecidableEq, Repr

/-- `public.has_role(_user_id, _role)`: whether a `user_roles` row with
this role exists for the user. -/
def has_role (u : DbUser) (r : Role) : Bool := u.roles.contains r

/-- A `profiles` row (the policy only reads its `id`). -/
structure ProfileRow where
  id : String
deriving DecidableEq, Repr

/-- A `user_roles` row. -/
structure UserRoleRow where
  user_id : String
  role : Role
deriving DecidableEq, Repr

/-- A `user_achievements` row. -/
structure UserAchievementRow where
  user_id : String
  achievement_key : String
deriving DecidableEq, Repr

/-- "Users can view all profiles": `USING (true)`. -/
def profilesSelectPolicy (_u : DbUser) (_p : ProfileRow) : Bool := true

/-- "Users can update own profile": `USING (auth.uid() = id)`. -/
def profilesUpdatePolicy (u : DbUser) (p : ProfileRow) : Bool := u.id == p.id

/-- "Users can insert own profile": `WITH CHECK (auth.uid() = id)`. -/
def profilesInsertPolicy (u : DbUser) (p : ProfileRow) : Bool := u.id == p.id

/-- "Users can view own role": `USING (auth.uid() = user_id)`. -/
def userRolesSelectPolicy (u : DbUser) (r : UserRoleRow) : Bool := u.id == r.user_id

/-- "Users can insert own role": `WITH CHECK (auth.uid() = user_id)`. -/
def userRolesInsertPolicy (u : DbUser) (r : UserRoleRow) : Bool := u.id == r.user_id

/-- "Everyone can view assignments": `USING (true)`. -/
def assignmentsSelectPolicy (_u : DbUser) (_a : AssignmentRow) : Bool := true

/-- "Teachers can create assignments":
`WITH CHECK (has_role(auth.uid(), 'teacher') AND auth.uid() = teacher_id)`. -/
def assignmentsInsertPolicy (u : DbUser) (a : AssignmentRow) : Bool :=
  has_role u .teacher && (u.id == a.teacher_id)

/-- "Teachers can update own assignments". -/
def assignmentsUpdatePolicy (u : DbUser) (a : AssignmentRow) : Bool :=
  has_role u .teacher && (u.id == a.teacher_id)

/-- "Teachers can delete own assignments". -/
def assignmentsDeletePolicy (u : DbUser) (a : AssignmentRow) : Bool :=
  has_role u .teacher && (u.id == a.teacher_id)

/-- "Students can view own submissions":
`USING (auth.uid() = student_id OR has_role(auth.uid(), 'teacher'))`. -/
def submissionsSelectPolicy (u : DbUser) (s : SubmissionRow) : Bool :=
  (u.id == s.student_id) || has_role u .teacher

/-- "Students can create submissions":
`WITH CHECK (has_role(auth.uid(), 'student') AND auth.uid() = student_id)`. -/
def submissionsInsertPolicy (u : DbUser) (s : SubmissionRow) : Bool :=
  has_role u .student && (u.id == s.student_id)

/-- "Students can update own submissions": `USING (auth.uid() = student_id)`. -/
def submissionsUpdatePolicy (u : DbUser) (s : SubmissionRow) : Bool :=
  u.id == s.student_id

/-- "Users can view own study sessions": `USING (auth.uid() = user_id)`. -/
def studySessionsSelectPolicy (u : DbUser) (s : StudySessionRow) : Bool :=
  u.id == s.user_id

/-- "Users can create study sessions": `WITH CHECK (auth.uid() = user_id)`. -/
def studySessionsInsertPolicy (u : DbUser) (s : StudySessionRow) : Bool :=
  u.id == s.user_id

/-- "Users can update own study sessions": `USING (auth.uid() = user_id)`. -/
def studySessionsUpdatePolicy (u : DbUser) (s : StudySessionRow) : Bool :=
  u.id == s.user_id

/-- "Users can view doubts":
`USING (auth.uid() = student_id OR has_role(auth.uid(), 'teacher'))`. -/
def doubtsSelectPolicy (u : DbUser) (d : DoubtRow) : Bool :=
  (u.id == d.student_id) || has_role u .teacher

/-- "Students can create doubts":
`WITH CHECK (has_role(auth.uid(), 'student') AND auth.uid() = student_id)`. -/
def doubtsInsertPolicy (u : DbUser) (d : DoubtRow) : Bool :=
  has_role u .student && (u.id == d.student_id)

/-- "Users can view doubt replies": `USING (true)`. -/
def doubtRepliesSelectPolicy (_u : DbUser) (_r : ReplyRow) : Bool := true

/-- "Teachers can create replies":
`WITH CHECK (has_role(auth.uid(), 'teacher') AND auth.uid() = teacher_id)`. -/
def doubtRepliesInsertPolicy (u : DbUser) (r : ReplyRow) : Bool :=
  has_role u .teacher && (u.id == r.teacher_id)

/-- "Users can view own achievements": `USING (auth.uid() = user_id)`. -/
def userAchievementsSelectPolicy (u : DbUser) (a : UserAchievementRow) : Bool :=
  u.id == a.user_id

/-- "Users can earn achievements": `WITH CHECK (auth.uid() = user_id)`. -/
def userAchievementsInsertPolicy (u : DbUser) (a : UserAchievementRow) : Bool :=
  u.id == a.user_id

/-- The declarative filter the assignments query adds client-side
(`if (role === 'teacher') query = query.eq('teacher_id', user.id)`);
a display restriction, not a permission check. -/
def assignmentsClientFilter (role : Option Role) (uid : String)
    (a : AssignmentRow) : Bool :=
  if role = some Role.teacher then a.teacher_id == uid else true

/-- The declarative filter the doubts query adds client-side
(`if (role === 'student') query = query.eq('student_id', user.id)`). -/
def doubtsClientFilter (role : Option Role) (uid : String) (d : DoubtRow) : Bool :=
  if role = some Role.student then d.student_id == uid else true

/-- The server's evaluation of a select: the row policy is applied to
every row, conjoined with whatever declarative filters the client sent. -/
def serverSelect {ρ : Type} (policy : DbUser → ρ → Bool) (u : DbUser)
    (rows : List ρ) (clientFilter : ρ → Bool) : List ρ :=
  rows.filter fun r => policy u r && clientFilter r

/-- The rows the `useAssignments` query obtains for a user. -/
def fetchAssignmentsRows (role : Option Role) (uid : String) (u : DbUser)
    (db : List AssignmentRow) : List AssignmentRow :=
  serverSelect assignmentsSelectPolicy u db (assignmentsClientFilter role uid)

/-- The rows the `useDoubts` query obtains for a user. -/
def fetchDoubtsRows (role : Option Role) (uid : String) (u : DbUser)
    (db : List DoubtRow) : List DoubtRow :=
  serverSelect doubtsSelectPolicy u db (doubtsClientFilter role uid)

/-- C8: row-level security policies are the sole authorization mechanism:
(1)–(2) every row a client query returns satisfies the table's `USING`
policy whatever filters the client code adds — the client can only narrow
the policy-permitted set, never widen it (for a student the doubts
query's client-side filter is exactly redundant, (3)); and (4) every
policy decision, for reads and writes on every table, is a function of
the requesting user's id and roles alone, so two users issuing the same
operation are distinguished only by the backend policies, never by
client-side code. -/
theorem rls_sole_authorization :
    (∀ (role : Option Role) (uid : String) (u : DbUser) (db : List AssignmentRow),
      ∀ a ∈ fetchAssignmentsRows role uid u db, assignmentsSelectPolicy u a = true) ∧
    (∀ (role : Option Role) (uid : String) (u : DbUser) (db : List DoubtRow),
      ∀ d ∈ fetchDoubtsRows role uid u db, doubtsSelectPolicy u d = true) ∧
    (∀ u : DbUser, u.roles = [Role.student] →
      ∀ db : List DoubtRow,
        fetchDoubtsRows (some Role.student) u.id u db
          = db.filter fun d => doubtsSelectPolicy u d) ∧
    (∀ u₁ u₂ : DbUser, u₁.id = u₂.id → u₁.roles = u₂.roles →
      (∀ a : AssignmentRow,
        assignmentsSelectPolicy u₁ a = assignmentsSelectPolicy u₂ a ∧
        assignmentsInsertPolicy u₁ a = assignmentsInsertPolicy u₂ a ∧
        assignmentsUpdatePolicy u₁ a = assignmentsUpdatePolicy u₂ a ∧
        assignmentsDeletePolicy u₁ a = assignmentsDeletePolicy u₂ a) ∧
      (∀ d : DoubtRow,
        doubtsSelectPolicy u₁ d = doubtsSelectPolicy u₂ d ∧
        doubtsInsertPolicy u₁ d = doubtsInsertPolicy u₂ d) ∧
      (∀ s : SubmissionRow,
        submissionsSelectPolicy u₁ s = submissionsSelectPolicy u₂ s ∧
        submissionsInsertPolicy u₁ s = submissionsInsertPolicy u₂ s ∧
        submissionsUpdatePolicy u₁ s = submissionsUpdatePolicy u₂ s) ∧
      (∀ s : StudySessionRow,
        studySessionsSelectPolicy u₁ s = studySessionsSelectPolicy u₂ s ∧
        studySessionsInsertPolicy u₁ s = studySessionsInsertPolicy u₂ s ∧
        studySessionsUpdatePolicy u₁ s = studySessionsUpdatePolicy u₂ s) ∧
      (∀ r : ReplyRow,
        doubtRepliesSelectPolicy u₁ r = doubtRepliesSelectPolicy u₂ r ∧
        doubtRepliesInsertPolicy u₁ r = doubtRepliesInsertPolicy u₂ r) ∧
      (∀ p : ProfileRow,
        profilesSelectPolicy u₁ p = profilesSelectPolicy u₂ p ∧
        profilesInsertPolicy u₁ p = profilesInsertPolicy u₂ p ∧
        profilesUpdatePolicy u₁ p = profilesUpdatePolicy u₂ p) ∧
      (∀ r : UserRoleRow,
        userRolesSelectPolicy u₁ r = userRolesSelectPolicy u₂ r ∧
        userRolesInsertPolicy u₁ r = userRolesInsertPolicy u₂ r) ∧
      (∀ a : UserAchievementRow,
        userAchievementsSelectPolicy u₁ a = userAchievementsSelectPolicy u₂ a ∧
        userAchievementsInsertPolicy u₁ a = userAchievementsInsertPolicy u₂ a)) := by
  refine ⟨?_, ?_, ?_, ?_⟩
  · intro role uid u db a ha
    obtain ⟨_, h2⟩ := List.mem_filter.mp ha
    exact (Bool.and_eq_true _ _).mp h2 |>.1
  · intro role uid u db d hd
    obtain ⟨_, h2⟩ := List.mem_filter.mp hd
    exact (Bool.and_eq_true _ _).mp h2 |>.1
  · intro u hroles db
    unfold fetchDoubtsRows serverSelect
    apply List.filter_congr
    intro d _
    have hteacher : has_role u Role.teacher = false := by
      simp only [has_role, hroles]
      decide
    by_cases h : u.id = d.student_id
    · simp [doubtsSelectPolicy, doubtsClientFilter, hteacher, h]
    · have hb1 : (u.id == d.student_id) = false := by
        rw [beq_eq_false_iff_ne]
        exact h
      have hb2 : (d.student_id == u.id) = false := by
        rw [beq_eq_false_iff_ne]
        exact fun hh => h hh.symm
      simp [doubtsSelectPolicy, doubtsClientFilter, hteacher, hb1, hb2]
  · intro u₁ u₂ h1 h2
    refine ⟨?_, ?_, ?_, ?_, ?_, ?_, ?_, ?_⟩ <;>
      intro r <;>
      simp [assignmentsSelectPolicy, assignmentsInsertPolicy, assignmentsUpdatePolicy,
        assignmentsDeletePolicy, doubtsSelectPolicy, doubtsInsertPolicy,
        submissionsSelectPolicy, submissionsInsertPolicy, submissionsUpdatePolicy,
        studySessionsSelectPolicy, studySessionsInsertPolicy, studySessionsUpdatePolicy,
        doubtRepliesSelectPolicy, doubtRepliesInsertPolicy, profilesSelectPolicy,
        profilesInsertPolicy, profilesUpdatePolicy, userRolesSelectPolicy,
        userRolesInsertPolicy, userAchievementsSelectPolicy, userAchievementsInsertPolicy,
        has_role, h1, h2]

/-- Witness for C8: the redundancy of the student's client-side doubts
filter, instantiated at a concrete student and a two-row doubts table. -/
theorem rls_sole_authorization_witness :
    fetchDoubtsRows (some Role.student) "s1" ⟨"s1", [Role.student]⟩
        [⟨"d1", "q1", "s1", "a1", "t", none, none, []⟩,
         ⟨"d2", "q2", "s2", "a1", "t", none, none, []⟩]
      = List.filter (fun d => doubtsSelectPolicy ⟨"s1", [Role.student]⟩ d)
        [⟨"d1", "q1", "s1", "a1", "t", none, none, []⟩,
         ⟨"d2", "q2", "s2", "a1", "t", none, none, []⟩] :=
  rls_sole_authorization.2.2.1 ⟨"s1", [Role.student]⟩ rfl
    [⟨"d1", "q1", "s1", "a1", "t", none, none, []⟩,
     ⟨"d2", "q2", "s2", "a1", "t", none, none, []⟩]

end EduFlow
